import Mathlib

/-!
Shallow embedding of `vnet_manager/config/validate.py` (class `ValidateConfig`).

Python's loosely-typed data is modelled by an inductive `Value` type
(None, bool, int, str, list, dict-as-association-list).  Every checker
method of the class becomes a Lean function from the validator state to
a result that is either a new state or a propagating Python exception
(`KeyError` / `TypeError` / `ValueError` / `IndexError`), matching the
fact that the Python code catches only `ValueError` in two places and
lets everything else escape.

External capabilities (filesystem existence tests, the `ipaddress`
parsers, the random MAC generator, and the `settings.SUPPORTED_MACHINE_TYPES`
constant, none of which are part of the validation module) are injected
through an `Env` structure, mirroring the spec's treatment of them as
external collaborators.
-/

set_option autoImplicit false

namespace VnetValidate

/-- Python values as they appear in a parsed YAML/JSON config. -/
inductive Value where
  | VNone : Value
  | VBool : Bool → Value
  | VInt : Int → Value
  | VStr : String → Value
  | VList : List Value → Value
  | VDict : List (Value × Value) → Value
  deriving Repr

open Value

mutual

/-- Python `==` on values: numeric cross-type equality identifies
`True`/`False` with `1`/`0`; other cross-type comparisons are `False`;
lists and dict entry lists compare element-wise. -/
def pyEq : Value → Value → Bool
  | VNone, VNone => true
  | VBool a, VBool b => a == b
  | VBool a, VInt n => (if a then (1 : Int) else 0) == n
  | VInt n, VBool a => n == (if a then (1 : Int) else 0)
  | VInt a, VInt b => a == b
  | VStr a, VStr b => a == b
  | VList xs, VList ys => pyEqList xs ys
  | VDict xs, VDict ys => pyEqEntries xs ys
  | _, _ => false

def pyEqList : List Value → List Value → Bool
  | [], [] => true
  | x :: xs, y :: ys => pyEq x y && pyEqList xs ys
  | _, _ => false

def pyEqEntries : List (Value × Value) → List (Value × Value) → Bool
  | [], [] => true
  | (k, v) :: xs, (k2, v2) :: ys => pyEq k k2 && pyEq v v2 && pyEqEntries xs ys
  | _, _ => false

end

/-- The Python exceptions that can propagate out of the validator. -/
inductive PyErr where
  | keyError : PyErr
  | typeError : PyErr
  | valueError : PyErr
  | indexError : PyErr
  deriving Repr, DecidableEq

/-- `isinstance(x, int)` — in Python, `bool` is a subclass of `int`. -/
def pyIsInt : Value → Bool
  | VInt _ => true
  | VBool _ => true
  | _ => false

/-- `isinstance(x, str)` -/
def pyIsStr : Value → Bool
  | VStr _ => true
  | _ => false

/-- `isinstance(x, dict)` -/
def pyIsDict : Value → Bool
  | VDict _ => true
  | _ => false

/-- `isinstance(x, list)` -/
def pyIsList : Value → Bool
  | VList _ => true
  | _ => false

/-- `isinstance(x, bool)` -/
def pyIsBool : Value → Bool
  | VBool _ => true
  | _ => false

/-- Numeric value of a Python `int`-like object (`bool` counts). -/
def pyToInt : Value → Int
  | VInt n => n
  | VBool b => if b then 1 else 0
  | _ => 0

/-- Hashable values may serve as dict keys; `list`/`dict` raise `TypeError`. -/
def pyHashable : Value → Bool
  | VList _ => false
  | VDict _ => false
  | _ => true

/-- Does `sub` occur at the head of `l`? -/
def leadMatch : List Char → List Char → Bool
  | [], _ => true
  | _ :: _, [] => false
  | a :: as, b :: bs => a == b && leadMatch as bs

/-- Does `sub` occur anywhere in `l`? -/
def subSearch (sub : List Char) : List Char → Bool
  | [] => leadMatch sub []
  | c :: cs => leadMatch sub (c :: cs) || subSearch sub cs

/-- Substring test used by Python's `in` on strings (`"" in s` is true). -/
def strContains (s sub : String) : Bool :=
  subSearch sub.data s.data

/-- Python `k in c` for dicts (key membership, unhashable keys raise),
lists (element membership), and strings (substring, non-str key raises);
other receivers raise `TypeError`. -/
def pyContains (c k : Value) : Except PyErr Bool :=
  match c with
  | VDict es =>
      if pyHashable k then .ok (es.any fun e => pyEq e.1 k) else .error .typeError
  | VList xs => .ok (xs.any fun x => pyEq x k)
  | VStr s =>
      match k with
      | VStr sub => .ok (strContains s sub)
      | _ => .error .typeError
  | _ => .error .typeError

/-- List/str index normalisation: Python allows negative indices. -/
def pyIndex (len : Nat) (i : Int) : Option Nat :=
  let j := if i < 0 then i + len else i
  if 0 ≤ j ∧ j < len then some j.toNat else none

/-- Python subscript `c[k]`. -/
def pySubscript (c k : Value) : Except PyErr Value :=
  match c with
  | VDict es =>
      if pyHashable k then
        match es.find? (fun e => pyEq e.1 k) with
        | some e => .ok e.2
        | none => .error .keyError
      else .error .typeError
  | VList xs =>
      if pyIsInt k then
        match pyIndex xs.length (pyToInt k) with
        | some j => .ok (xs.getD j VNone)
        | none => .error .indexError
      else .error .typeError
  | VStr s =>
      if pyIsInt k then
        match pyIndex s.length (pyToInt k) with
        | some j => .ok (VStr (String.mk [s.data.getD j ' ']))
        | none => .error .indexError
      else .error .typeError
  | _ => .error .typeError

/-- Store into a dict entry list: update the first matching key in place,
append a fresh key at the end (Python dict semantics). -/
def dictStore : List (Value × Value) → Value → Value → List (Value × Value)
  | [], k, v => [(k, v)]
  | e :: es, k, v => if pyEq e.1 k then (e.1, v) :: es else e :: dictStore es k v

/-- Python subscript assignment `c[k] = v` on dicts and lists. -/
def pyStoreItem (c k v : Value) : Except PyErr Value :=
  match c with
  | VDict es =>
      if pyHashable k then .ok (VDict (dictStore es k v)) else .error .typeError
  | VList xs =>
      if pyIsInt k then
        match pyIndex xs.length (pyToInt k) with
        | some j => .ok (VList (xs.set j v))
        | none => .error .indexError
      else .error .typeError
  | _ => .error .typeError

/-- Remove the first entry with the given key from a dict entry list. -/
def dictRemove : List (Value × Value) → Value → List (Value × Value)
  | [], _ => []
  | e :: es, k => if pyEq e.1 k then es else e :: dictRemove es k

/-- Python `d.pop(k)`: returns the removed value and the shrunk dict;
raises `KeyError` when absent, `TypeError` on non-dicts. -/
def pyPopItem (c k : Value) : Except PyErr (Value × Value) :=
  match c with
  | VDict es =>
      if pyHashable k then
        match es.find? (fun e => pyEq e.1 k) with
        | some e => .ok (e.2, VDict (dictRemove es k))
        | none => .error .keyError
      else .error .typeError
  | _ => .error .typeError

/-- Write `v` at the location reached by subscripting along `path` and
finally storing at the last path component (a functional rendering of a
Python chained-subscript assignment such as `d[a][b][c] = v`). -/
def pySetPath (root : Value) (path : List Value) (v : Value) : Except PyErr Value :=
  match path with
  | [] => .error .typeError
  | [k] => pyStoreItem root k v
  | p :: ps =>
      match pySubscript root p with
      | .error e => .error e
      | .ok child =>
          match pySetPath child ps v with
          | .error e => .error e
          | .ok child2 => pyStoreItem root p child2

/-- `d[a][b].pop(k)`: traverse `path`, pop `k` from the dict found there,
returning the popped value together with the updated root. -/
def pyPopPath (root : Value) (path : List Value) (k : Value) : Except PyErr (Value × Value) :=
  match path with
  | [] => pyPopItem root k
  | p :: ps =>
      match pySubscript root p with
      | .error e => .error e
      | .ok child =>
          match pyPopPath child ps k with
          | .error e => .error e
          | .ok (v, child2) =>
              match pyStoreItem root p child2 with
              | .error e => .error e
              | .ok root2 => .ok (v, root2)

/-- Read-only traversal along a subscript path (used only in theorem
statements to inspect the normalized copy). -/
def pyGetPath (root : Value) : List Value → Except PyErr Value
  | [] => .ok root
  | p :: ps =>
      match pySubscript root p with
      | .error e => .error e
      | .ok child => pyGetPath child ps

/-- `os.path.join` for two string components under POSIX rules: an
absolute second component discards the first.  (The caller raises
`TypeError` when either operand is not a string, as `os.path.join`
does.) -/
def joinPath (x y : String) : String :=
  if y.data.head? = some '/' then y
  else if x.data.isEmpty || x.data.getLast? = some '/' then x ++ y
  else x ++ "/" ++ y

/-- A non-empty all-digit character run, as an integer. -/
def digitsToInt : List Char → Option Int
  | [] => none
  | cs =>
      if cs.all Char.isDigit then
        some (cs.foldl (fun acc c => acc * 10 + (Int.ofNat (c.toNat - '0'.toNat))) 0)
      else none

/-- `int(s)` string grammar: optional surrounding whitespace, optional
sign, one or more decimal digits. -/
def pyStrToInt (s : String) : Option Int :=
  match (s.data.dropWhile Char.isWhitespace).reverse.dropWhile Char.isWhitespace |>.reverse with
  | '-' :: core => (digitsToInt core).map (fun m => -m)
  | '+' :: core => digitsToInt core
  | core => digitsToInt core

/-- Python `int(x)`: ints and bools convert, strings are parsed
(`ValueError` on bad syntax), any other type raises `TypeError`.
The validator catches only the `ValueError` case. -/
def pyIntCoerce : Value → Except PyErr Int
  | VInt n => .ok n
  | VBool b => .ok (if b then 1 else 0)
  | VStr s =>
      match pyStrToInt s with
      | some n => .ok n
      | none => .error .valueError
  | _ => .error .typeError

/-- `x - 1` on a Python int-like value; non-numeric types raise
`TypeError` (this is `self.config["switches"] - 1`). -/
def pySubOne : Value → Except PyErr Int
  | VInt n => .ok (n - 1)
  | VBool b => .ok ((if b then (1 : Int) else 0) - 1)
  | _ => .error .typeError

/-- Is `c` a hex digit (either case)? -/
def isHexChar (c : Char) : Bool :=
  c.isDigit || ('a' ≤ c && c ≤ 'f') || ('A' ≤ c && c ≤ 'F')

/-- One `[0-9A-Fa-f]{2}[:-]` group followed by the rest. -/
def macGroups : Nat → List Char → Bool
  | 0, [a, b] => isHexChar a && isHexChar b
  | n + 1, a :: b :: d :: rest =>
      isHexChar a && isHexChar b && (d == ':' || d == '-') && macGroups n rest
  | _, _ => false

/-- `re.fullmatch` of the validator's MAC pattern
`^([0-9A-Fa-f]{2}[:-]){5}([0-9A-Fa-f]{2})$`. -/
def macRegexMatch (s : String) : Bool :=
  macGroups 5 s.data

/-- One structured record per `logger.error` site of the module (each
such site also sets `_all_ok = False`; debug/info messages carry no
state and are not recorded). -/
inductive Viol where
  | switchesMissing : Viol
  | switchesNotInt : Value → Viol
  | machinesMissing : Viol
  | machinesNotDict : Viol
  | typeMissing : Value → Viol
  | typeUnsupported : Value → Value → Viol
  | filesNotDict : Value → Viol
  | interfacesMissing : Value → Viol
  | interfacesNotDict : Value → Viol
  | vlansNotDict : Value → Viol
  | bridgesNotDict : Value → Viol
  | vlanIdMissing : Value → Value → Viol
  | vlanIdNotInt : Value → Value → Viol
  | vlanLinkMissing : Value → Value → Viol
  | vlanLinkNotStr : Value → Value → Viol
  | vlanLinkDangling : Value → Value → Value → Viol
  | vlanAddressesNotList : Value → Value → Viol
  | vlanAddressInvalid : Value → Value → Value → Viol
  | fileUnresolvable : Value → Value → Viol
  | ipv4Invalid : Value → Value → Viol
  | ipv6Invalid : Value → Value → Viol
  | macInvalid : Value → Value → Value → Viol
  | bridgeMissing : Value → Value → Viol
  | bridgeInvalid : Value → Value → Viol
  | routesNotList : Value → Value → Viol
  | routeToMissing : Value → Value → Nat → Viol
  | routeToInvalid : Value → Value → Nat → Value → Viol
  | routeViaMissing : Value → Value → Nat → Viol
  | routeViaInvalid : Value → Value → Nat → Value → Viol
  | brIpv4Invalid : Value → Value → Viol
  | brIpv6Invalid : Value → Value → Viol
  | brSlavesMissing : Value → Value → Viol
  | brSlavesNotList : Value → Value → Viol
  | brSlaveUndefined : Value → Value → Value → Viol
  | vethsNotDict : Viol
  | vethNameNotStr : Value → Viol
  | vethDataNotDict : Value → Viol
  | vethBridgeMissing : Value → Viol
  | vethBridgeNotStr : Value → Viol
  | vethPeerNotStr : Value → Viol
  | vethStpNotBool : Value → Viol
  deriving Repr

/-- The mutable attributes of a `ValidateConfig` object:
`self.config` (the original, as supplied), `self._new_config`
(the deep copy), `self._all_ok`, `self._validators_ran`, plus the
recorded error log and the number of MAC-generator draws made so far
(the generator is modelled as a stream indexed by this counter). -/
structure St where
  config : Value
  newConfig : Value
  allOk : Bool
  validatorsRan : Nat
  errors : List Viol
  macUsed : Nat
  deriving Repr

/-- `ValidateConfig.__init__`: store the config by reference, deep-copy
it into `_new_config`, flag true, counter zero. -/
def initSt (config : Value) : St :=
  { config := config, newConfig := config, allOk := true,
    validatorsRan := 0, errors := [], macUsed := 0 }

/-- External collaborators: filesystem stat predicates, `ipaddress`
parser oracles (true = the literal parses; the real parsers raise only
`ValueError`, which every call site catches), the random MAC generator
(a stream), and the `settings.SUPPORTED_MACHINE_TYPES` constant. -/
structure Env where
  isdir : String → Bool
  isfile : String → Bool
  ipv4InterfaceOk : Value → Bool
  ipv6InterfaceOk : Value → Bool
  ipInterfaceOk : Value → Bool
  ipNetworkOk : Value → Bool
  ipAddressOk : Value → Bool
  macGen : Nat → String
  supportedMachineTypes : Value

/-- Result of running a checker: either a new state, or a propagating
Python exception together with the state at the moment of the raise
(the object survives an escaped exception). -/
inductive PRes where
  | ok : St → PRes
  | err : PyErr → St → PRes
  deriving Repr

/-- The state carried by a result, whether or not an exception escaped. -/
def PRes.st : PRes → St
  | .ok s => s
  | .err _ s => s

/-- Sequencing: an escaped exception skips the rest of the run. -/
def PRes.bind : PRes → (St → PRes) → PRes
  | .ok s, f => f s
  | .err e s, _ => .err e s

/-- Run a fallible Python expression; its exception aborts with the
current state. -/
def liftE {α : Type} (s : St) (x : Except PyErr α) (f : α → PRes) : PRes :=
  match x with
  | .error e => .err e s
  | .ok a => f a

/-- `logger.error(...)` followed by `self._all_ok = False`. -/
def fail (s : St) (v : Viol) : St :=
  { s with allOk := false, errors := s.errors ++ [v] }

/-- A Python `for` loop over a list of items threading the object state;
an escaped exception aborts the remaining iterations. -/
def runList {α : Type} (f : α → St → PRes) : List α → St → PRes
  | [], s => .ok s
  | x :: xs, s => (f x s).bind (runList f xs)

/-- Membership in `d.keys()`: receiver must be a dict (otherwise the
attribute access raises), and the key must be hashable. -/
def pyKeysContains (d k : Value) : Except PyErr Bool :=
  match d with
  | VDict es =>
      if pyHashable k then .ok (es.any fun e => pyEq e.1 k) else .error .typeError
  | _ => .error .typeError

/-- Checks of `validate_switch_config` after the counter bump:
`switches` must be present and an `int`. -/
def switchChecks (s : St) : PRes :=
  liftE s (pyContains s.config (VStr "switches")) fun hasIt =>
  if !hasIt then .ok (fail s .switchesMissing)
  else
    liftE s (pySubscript s.config (VStr "switches")) fun sw =>
    if !pyIsInt sw then .ok (fail s (.switchesNotInt sw))
    else .ok s

/-- `validate_switch_config`: bump `_validators_ran`, then check. -/
def validate_switch_config (s : St) : PRes :=
  switchChecks { s with validatorsRan := s.validatorsRan + 1 }

/-- Body of the `for host_file in files.keys()` loop of
`validate_machine_files_parameters`. -/
def filesEntry (env : Env) (machine hostFile : Value) (s : St) : PRes :=
  liftE s (pySubscript s.config (VStr "config_dir")) fun cdir =>
  match cdir, hostFile with
  | VStr cd, VStr hf =>
      if env.isdir (joinPath cd hf) || env.isfile (joinPath cd hf) then
        liftE s (pyPopPath s.newConfig [VStr "machines", machine, VStr "files"] hostFile)
          fun pr =>
        liftE s (pySetPath pr.2 [VStr "machines", machine, VStr "files", VStr (joinPath cd hf)] pr.1)
          fun nc =>
        .ok { s with newConfig := nc }
      else if !env.isdir hf || !env.isfile hf then
        .ok (fail s (.fileUnresolvable machine hostFile))
      else .ok s
  | _, _ => .err .typeError s

/-- `validate_machine_files_parameters` (caller guarantees the files
directive is a dict). -/
def validate_machine_files_parameters (env : Env) (machine : Value) (s : St) : PRes :=
  liftE s (pyGetPath s.config [VStr "machines", machine, VStr "files"]) fun files =>
  match files with
  | VDict es => runList (filesEntry env machine) (es.map Prod.fst) s
  | _ => .err .typeError s

/-- Body of the per-route loop of `validate_interface_routes`
(`idx` is the 0-based `enumerate` index). -/
def checkRoute (env : Env) (machine intName : Value) (ir : Nat × Value) (s : St) : PRes :=
  let idx := ir.1
  let route := ir.2
  (liftE s (pyContains route (VStr "to")) fun hasTo =>
   if !hasTo then .ok (fail s (.routeToMissing machine intName idx))
   else
     liftE s (pySubscript route (VStr "to")) fun tv =>
     if env.ipNetworkOk tv then .ok s
     else if pyEq tv (VStr "default") then
       liftE s (pySetPath s.newConfig
         [VStr "machines", machine, VStr "interfaces", intName, VStr "routes",
          VInt (Int.ofNat idx), VStr "to"] (VStr "0.0.0.0/0")) fun nc =>
       .ok { s with newConfig := nc }
     else .ok (fail s (.routeToInvalid machine intName idx tv))).bind fun s =>
  liftE s (pyContains route (VStr "via")) fun hasVia =>
  if !hasVia then .ok (fail s (.routeViaMissing machine intName idx))
  else
    liftE s (pySubscript route (VStr "via")) fun vv =>
    if env.ipAddressOk vv then .ok s
    else .ok (fail s (.routeViaInvalid machine intName idx vv))

/-- `validate_interface_routes(routes, int_name, machine)`. -/
def validate_interface_routes (env : Env) (routes : List Value) (intName machine : Value)
    (s : St) : PRes :=
  runList (checkRoute env machine intName) routes.enum s

/-- Body of the per-interface loop of `validate_interface_config`. -/
def checkInterface (env : Env) (machine : Value) (iv : Value × Value) (s : St) : PRes :=
  let intName := iv.1
  let intVals := iv.2
  (liftE s (pyContains intVals (VStr "ipv4")) fun has4 =>
   if !has4 then .ok s
   else
     liftE s (pySubscript intVals (VStr "ipv4")) fun v =>
     if env.ipv4InterfaceOk v then .ok s
     else .ok (fail s (.ipv4Invalid machine v))).bind fun s =>
  (liftE s (pyContains intVals (VStr "ipv6")) fun has6 =>
   if !has6 then .ok s
   else
     liftE s (pySubscript intVals (VStr "ipv6")) fun v =>
     if env.ipv6InterfaceOk v then .ok s
     else .ok (fail s (.ipv6Invalid machine v))).bind fun s =>
  (liftE s (pyContains intVals (VStr "mac")) fun hasMac =>
   if !hasMac then
     liftE s (pySetPath s.newConfig
       [VStr "machines", machine, VStr "interfaces", intName, VStr "mac"]
       (VStr (env.macGen s.macUsed))) fun nc =>
     .ok { s with newConfig := nc, macUsed := s.macUsed + 1 }
   else
     liftE s (pySubscript intVals (VStr "mac")) fun mv =>
     match mv with
     | VStr ms =>
         if macRegexMatch ms then .ok s
         else .ok (fail s (.macInvalid machine intName mv))
     | _ => .err .typeError s).bind fun s =>
  (liftE s (pyContains intVals (VStr "bridge")) fun hasBr =>
   if !hasBr then .ok (fail s (.bridgeMissing machine intName))
   else
     liftE s (pySubscript intVals (VStr "bridge")) fun bv =>
     if !pyIsInt bv then .ok (fail s (.bridgeInvalid machine intName))
     else
       liftE s (pySubscript s.config (VStr "switches")) fun sw =>
       liftE s (pySubOne sw) fun bound =>
       if pyToInt bv > bound then .ok (fail s (.bridgeInvalid machine intName))
       else .ok s).bind fun s =>
  liftE s (pyContains intVals (VStr "routes")) fun hasRoutes =>
  if !hasRoutes then .ok s
  else
    liftE s (pySubscript intVals (VStr "routes")) fun rv =>
    match rv with
    | VList rs => validate_interface_routes env rs intName machine s
    | _ => .ok (fail s (.routesNotList machine intName))

/-- `validate_interface_config` (caller guarantees the interfaces
directive is a dict). -/
def validate_interface_config (env : Env) (machine : Value) (s : St) : PRes :=
  liftE s (pyGetPath s.config [VStr "machines", machine, VStr "interfaces"]) fun ifs =>
  match ifs with
  | VDict es => runList (checkInterface env machine) es s
  | _ => .err .typeError s

/-- Body of the per-VLAN loop of `validate_vlan_config`.  The dangling
`link` cross-reference check runs only when `self._all_ok` still holds
(source line: `elif self._all_ok and values["link"] not in ...`). -/
def checkVlan (env : Env) (machine : Value) (nv : Value × Value) (s : St) : PRes :=
  let name := nv.1
  let values := nv.2
  (liftE s (pyContains values (VStr "id")) fun hasId =>
   if !hasId then .ok (fail s (.vlanIdMissing machine name))
   else
     liftE s (pySubscript values (VStr "id")) fun idv =>
     match pyIntCoerce idv with
     | .ok n =>
         liftE s (pySetPath s.newConfig
           [VStr "machines", machine, VStr "vlans", name, VStr "id"] (VInt n)) fun nc =>
         .ok { s with newConfig := nc }
     | .error .valueError => .ok (fail s (.vlanIdNotInt machine name))
     | .error e => .err e s).bind fun s =>
  (liftE s (pyContains values (VStr "link")) fun hasLink =>
   if !hasLink then .ok (fail s (.vlanLinkMissing machine name))
   else
     liftE s (pySubscript values (VStr "link")) fun lv =>
     if !pyIsStr lv then .ok (fail s (.vlanLinkNotStr machine name))
     else if s.allOk then
       liftE s (pyGetPath s.config [VStr "machines", machine, VStr "interfaces"]) fun ifs =>
       liftE s (pyContains ifs lv) fun isMember =>
       if !isMember then .ok (fail s (.vlanLinkDangling machine name lv))
       else .ok s
     else .ok s).bind fun s =>
  liftE s (pyContains values (VStr "addresses")) fun hasAddrs =>
  if !hasAddrs then .ok s
  else
    liftE s (pySubscript values (VStr "addresses")) fun av =>
    match av with
    | VList addrs =>
        runList (fun a s =>
          if env.ipInterfaceOk a then .ok s
          else .ok (fail s (.vlanAddressInvalid machine name a))) addrs s
    | _ => .ok (fail s (.vlanAddressesNotList machine name))

/-- `validate_vlan_config` (caller guarantees the vlans directive is a
dict). -/
def validate_vlan_config (env : Env) (machine : Value) (s : St) : PRes :=
  liftE s (pyGetPath s.config [VStr "machines", machine, VStr "vlans"]) fun vlans =>
  match vlans with
  | VDict es => runList (checkVlan env machine) es s
  | _ => .err .typeError s

/-- Per-slave existence check of the bridge checker: note that it
re-reads `self.config["machines"][machine]["interfaces"]`, which raises
`KeyError` when the machine has no interfaces section. -/
def checkBridgeSlave (machine brName slave : Value) (s : St) : PRes :=
  liftE s (pyGetPath s.config [VStr "machines", machine, VStr "interfaces"]) fun ifs =>
  liftE s (pyKeysContains ifs slave) fun isMember =>
  if !isMember then .ok (fail s (.brSlaveUndefined machine brName slave))
  else .ok s

/-- Body of the per-bridge loop of `validate_machine_bridge_config`. -/
def checkBridge (env : Env) (machine : Value) (bv : Value × Value) (s : St) : PRes :=
  let brName := bv.1
  let brVals := bv.2
  (liftE s (pyContains brVals (VStr "ipv4")) fun has4 =>
   if !has4 then .ok s
   else
     liftE s (pySubscript brVals (VStr "ipv4")) fun v =>
     if env.ipv4InterfaceOk v then .ok s
     else .ok (fail s (.brIpv4Invalid machine brName))).bind fun s =>
  (liftE s (pyContains brVals (VStr "ipv6")) fun has6 =>
   if !has6 then .ok s
   else
     liftE s (pySubscript brVals (VStr "ipv6")) fun v =>
     if env.ipv6InterfaceOk v then .ok s
     else .ok (fail s (.brIpv6Invalid machine brName))).bind fun s =>
  liftE s (pyContains brVals (VStr "slaves")) fun hasSlaves =>
  if !hasSlaves then .ok (fail s (.brSlavesMissing machine brName))
  else
    liftE s (pySubscript brVals (VStr "slaves")) fun sv =>
    match sv with
    | VList slaves => runList (checkBridgeSlave machine brName) slaves s
    | _ => .ok (fail s (.brSlavesNotList machine brName))

/-- `validate_machine_bridge_config` (caller guarantees the bridges
directive is a dict). -/
def validate_machine_bridge_config (env : Env) (machine : Value) (s : St) : PRes :=
  liftE s (pyGetPath s.config [VStr "machines", machine, VStr "bridges"]) fun bridges =>
  match bridges with
  | VDict es => runList (checkBridge env machine) es s
  | _ => .err .typeError s

/-- The `type` block of the per-machine loop. -/
def checkMachineType (env : Env) (name values : Value) (s : St) : PRes :=
  liftE s (pyContains values (VStr "type")) fun hasType =>
  if !hasType then .ok (fail s (.typeMissing name))
  else
    liftE s (pySubscript values (VStr "type")) fun t =>
    liftE s (pyContains env.supportedMachineTypes t) fun supported =>
    if !supported then .ok (fail s (.typeUnsupported name t))
    else .ok s

/-- The `files` block of the per-machine loop. -/
def checkMachineFiles (env : Env) (name values : Value) (s : St) : PRes :=
  liftE s (pyContains values (VStr "files")) fun hasFiles =>
  if !hasFiles then .ok s
  else
    liftE s (pySubscript values (VStr "files")) fun fv =>
    if !pyIsDict fv then .ok (fail s (.filesNotDict name))
    else validate_machine_files_parameters env name s

/-- The `interfaces` block of the per-machine loop. -/
def checkMachineInterfaces (env : Env) (name values : Value) (s : St) : PRes :=
  liftE s (pyContains values (VStr "interfaces")) fun hasIfs =>
  if !hasIfs then .ok (fail s (.interfacesMissing name))
  else
    liftE s (pySubscript values (VStr "interfaces")) fun iv =>
    if !pyIsDict iv then .ok (fail s (.interfacesNotDict name))
    else validate_interface_config env name s

/-- The `vlans` block of the per-machine loop. -/
def checkMachineVlans (env : Env) (name values : Value) (s : St) : PRes :=
  liftE s (pyContains values (VStr "vlans")) fun hasVlans =>
  if !hasVlans then .ok s
  else
    liftE s (pySubscript values (VStr "vlans")) fun vv =>
    if !pyIsDict vv then .ok (fail s (.vlansNotDict name))
    else validate_vlan_config env name s

/-- The `bridges` block of the per-machine loop. -/
def checkMachineBridges (env : Env) (name values : Value) (s : St) : PRes :=
  liftE s (pyContains values (VStr "bridges")) fun hasBridges =>
  if !hasBridges then .ok s
  else
    liftE s (pySubscript values (VStr "bridges")) fun bv =>
    if !pyIsDict bv then .ok (fail s (.bridgesNotDict name))
    else validate_machine_bridge_config env name s

/-- Body of the per-machine loop of `validate_machine_config`. -/
def checkMachine (env : Env) (nv : Value × Value) (s : St) : PRes :=
  (checkMachineType env nv.1 nv.2 s).bind fun s =>
  (checkMachineFiles env nv.1 nv.2 s).bind fun s =>
  (checkMachineInterfaces env nv.1 nv.2 s).bind fun s =>
  (checkMachineVlans env nv.1 nv.2 s).bind fun s =>
  checkMachineBridges env nv.1 nv.2 s

/-- Checks of `validate_machine_config` after the counter bump. -/
def machineChecks (env : Env) (s : St) : PRes :=
  liftE s (pyContains s.config (VStr "machines")) fun hasIt =>
  if !hasIt then .ok (fail s .machinesMissing)
  else
    liftE s (pySubscript s.config (VStr "machines")) fun ms =>
    match ms with
    | VDict es => runList (checkMachine env) es s
    | _ => .ok (fail s .machinesNotDict)

/-- `validate_machine_config`: bump `_validators_ran`, then check. -/
def validate_machine_config (env : Env) (s : St) : PRes :=
  machineChecks env { s with validatorsRan := s.validatorsRan + 1 }

/-- `validate_veth_config`: body of the per-entry loop. -/
def checkVeth (nv : Value × Value) (s : St) : PRes :=
  if !pyIsStr nv.1 then .ok (fail s (.vethNameNotStr nv.1))
  else if !pyIsDict nv.2 then .ok (fail s (.vethDataNotDict nv.1))
  else
    (liftE s (pyContains nv.2 (VStr "bridge")) fun hasBr =>
     if !hasBr then .ok (fail s (.vethBridgeMissing nv.1))
     else
       liftE s (pySubscript nv.2 (VStr "bridge")) fun bv =>
       if !pyIsStr bv then .ok (fail s (.vethBridgeNotStr nv.1))
       else .ok s).bind fun s =>
    (liftE s (pyContains nv.2 (VStr "peer")) fun hasPeer =>
     if !hasPeer then .ok s
     else
       liftE s (pySubscript nv.2 (VStr "peer")) fun pv =>
       if !pyIsStr pv then .ok (fail s (.vethPeerNotStr nv.1))
       else .ok s).bind fun s =>
    liftE s (pyContains nv.2 (VStr "stp")) fun hasStp =>
    if !hasStp then .ok s
    else
      liftE s (pySubscript nv.2 (VStr "stp")) fun sv =>
      if !pyIsBool sv then .ok (fail s (.vethStpNotBool nv.1))
      else .ok s

/-- `validate_veth_config`: warning-only early return when `veths` is
absent, failure without iteration when it is not a dict. -/
def validate_veth_config (s : St) : PRes :=
  liftE s (pyContains s.config (VStr "veths")) fun hasIt =>
  if !hasIt then .ok s
  else
    liftE s (pySubscript s.config (VStr "veths")) fun vv =>
    match vv with
    | VDict es => runList checkVeth es s
    | _ => .ok (fail s .vethsNotDict)

/-- The checker sequence of `validate()` after the flag reset: switch
checker, machine checker, and — only when the root description has a
`veths` key — the veth checker. -/
def validateSteps (env : Env) (s : St) : PRes :=
  (validate_switch_config s).bind fun s =>
  (validate_machine_config env s).bind fun s =>
  liftE s (pyContains s.config (VStr "veths")) fun hasVeths =>
  if hasVeths then validate_veth_config s else .ok s

/-- `validate()`: reset `_all_ok` to true, then run the fixed checker
sequence. -/
def validate (env : Env) (s : St) : PRes :=
  validateSteps env { s with allOk := true }

/-- The exception carried by a result, if one escaped. -/
def PRes.errOf : PRes → Option PyErr
  | .ok _ => none
  | .err e _ => some e

/-!
## Concrete instantiation of the external collaborators

A deterministic environment for the concrete runs below: the filesystem
contains exactly a file `data` (relative to the working directory) and a
file `/c/f`; the IP parsers accept exactly `10.0.0.0/24` as a network
and `10.0.0.1` as an address; the MAC generator is a constant stream;
the supported machine types are `host`, `router`, `switch`.
-/

def exEnv : Env :=
  { isdir := fun _ => false,
    isfile := fun p => p == "data" || p == "/c/f",
    ipv4InterfaceOk := fun _ => false,
    ipv6InterfaceOk := fun _ => false,
    ipInterfaceOk := fun _ => false,
    ipNetworkOk := fun v => pyEq v (VStr "10.0.0.0/24"),
    ipAddressOk := fun v => pyEq v (VStr "10.0.0.1"),
    macGen := fun _ => "aa:bb:cc:dd:ee:ff",
    supportedMachineTypes := VList [VStr "host", VStr "router", VStr "switch"] }

/-- A machine with one interface carrying a valid MAC literal and the
given bridge index. -/
def exIface (bridge : Int) : Value :=
  VDict [(VStr "mac", VStr "aa:bb:cc:dd:ee:ff"), (VStr "bridge", VInt bridge)]

/-- Description whose machine file entry `data` does not resolve
relative to `config_dir` (`/c/data` does not exist) but does exist as a
file at the path as given (`isfile "data"` is true in `exEnv`). -/
def exCfgFileAbs : Value :=
  VDict [(VStr "switches", VInt 1),
         (VStr "config_dir", VStr "/c"),
         (VStr "machines", VDict [(VStr "m", VDict
           [(VStr "type", VStr "host"),
            (VStr "files", VDict [(VStr "data", VNone)]),
            (VStr "interfaces", VDict [(VStr "e", exIface 0)])])])]

/-- Description with a negative interface `bridge` value and
`switches: 1`; everything else is valid. -/
def exCfgNegBridge : Value :=
  VDict [(VStr "switches", VInt 1),
         (VStr "machines", VDict [(VStr "m", VDict
           [(VStr "type", VStr "host"),
            (VStr "interfaces", VDict [(VStr "e", exIface (-1))])])])]

/-- Description with no `switches` key while an interface carries an
integer `bridge` value. -/
def exCfgNoSwitches : Value :=
  VDict [(VStr "machines", VDict [(VStr "m", VDict
           [(VStr "type", VStr "host"),
            (VStr "interfaces", VDict [(VStr "e", exIface 0)])])])]

/-- Description whose VLAN `id` is `None` (a type `int()` cannot accept:
`TypeError`, which the code does not catch). -/
def exCfgVlanNone : Value :=
  VDict [(VStr "switches", VInt 1),
         (VStr "machines", VDict [(VStr "m", VDict
           [(VStr "type", VStr "host"),
            (VStr "interfaces", VDict [(VStr "e", exIface 0)]),
            (VStr "vlans", VDict [(VStr "v10", VDict
              [(VStr "id", VNone), (VStr "link", VStr "e")])])])])]

/-- Description whose interface `mac` is an integer (`re.fullmatch`
raises `TypeError` on a non-string). -/
def exCfgMacInt : Value :=
  VDict [(VStr "switches", VInt 1),
         (VStr "machines", VDict [(VStr "m", VDict
           [(VStr "type", VStr "host"),
            (VStr "interfaces", VDict [(VStr "e", VDict
              [(VStr "mac", VInt 5), (VStr "bridge", VInt 0)])])])])]

/-- Description whose machine file entry `f` resolves relative to
`config_dir` (`/c/f` exists in `exEnv`), so a run rewrites the key. -/
def exCfgFileRel : Value :=
  VDict [(VStr "switches", VInt 1),
         (VStr "config_dir", VStr "/c"),
         (VStr "machines", VDict [(VStr "m", VDict
           [(VStr "type", VStr "host"),
            (VStr "files", VDict [(VStr "f", VNone)]),
            (VStr "interfaces", VDict [(VStr "e", exIface 0)])])])]

/-- Description with a `veths` section (and one machine), so the veth
checker runs in addition to the switch and machine checkers. -/
def exCfgVeths : Value :=
  VDict [(VStr "switches", VInt 1),
         (VStr "machines", VDict [(VStr "m", VDict
           [(VStr "type", VStr "host"),
            (VStr "interfaces", VDict [(VStr "e", exIface 0)])])]),
         (VStr "veths", VDict [(VStr "v1", VDict [(VStr "bridge", VStr "br0")])])]

/-- A description with a single machine `m` holding a single interface
`i` with the given per-interface spec — the family over which the
MAC-generation claim is proved. -/
def oneIfaceCfg (m i : String) (sw : Int) (t : Value) (ifspec : Value) : Value :=
  VDict [(VStr "switches", VInt sw),
         (VStr "machines", VDict [(VStr m, VDict
           [(VStr "type", t),
            (VStr "interfaces", VDict [(VStr i, ifspec)])])])]

/-- Description with a VLAN whose `link` (`ethX`) names no interface of
its machine (`e` is the only interface). -/
def exCfgVlanDangling : Value :=
  VDict [(VStr "switches", VInt 1),
         (VStr "machines", VDict [(VStr "m", VDict
           [(VStr "type", VStr "host"),
            (VStr "interfaces", VDict [(VStr "e", exIface 0)]),
            (VStr "vlans", VDict [(VStr "v10", VDict
              [(VStr "id", VInt 10), (VStr "link", VStr "ethX")])])])])]

/-- Description with one route using the legacy `default` destination. -/
def exCfgRoute : Value :=
  VDict [(VStr "switches", VInt 1),
         (VStr "machines", VDict [(VStr "m", VDict
           [(VStr "type", VStr "host"),
            (VStr "interfaces", VDict [(VStr "e", VDict
              [(VStr "mac", VStr "aa:bb:cc:dd:ee:ff"), (VStr "bridge", VInt 0),
               (VStr "routes", VList [VDict
                 [(VStr "to", VStr "default"),
                  (VStr "via", VStr "10.0.0.1")]])])])])])]

/-- `exCfgRoute` with the legacy destination rewritten to `0.0.0.0/0`. -/
def exCfgRouteFixed : Value :=
  VDict [(VStr "switches", VInt 1),
         (VStr "machines", VDict [(VStr "m", VDict
           [(VStr "type", VStr "host"),
            (VStr "interfaces", VDict [(VStr "e", VDict
              [(VStr "mac", VStr "aa:bb:cc:dd:ee:ff"), (VStr "bridge", VInt 0),
               (VStr "routes", VList [VDict
                 [(VStr "to", VStr "0.0.0.0/0"),
                  (VStr "via", VStr "10.0.0.1")]])])])])])]

/-- The step relation of a top-level checker that bumps the counter. -/
def StepS1 (s t : St) : Prop :=
  t.config = s.config ∧ t.validatorsRan = s.validatorsRan + 1 ∧
  (t.allOk = true → s.allOk = true ∧ t.errors = s.errors)

/-!
## Invariant layer

`StepS s t` records what a single checker step may do to the object
state: it never touches the stored original `config`, never touches
`_validators_ran` (the two top-level checkers that do bump it are
treated separately), and is monotone in the failure flag — when the
flag is true afterwards, it was true before and no error was recorded.
-/

/-- What every inner checker step does to the state. -/
def StepS (s t : St) : Prop :=
  t.config = s.config ∧ t.validatorsRan = s.validatorsRan ∧
  (t.allOk = true → s.allOk = true ∧ t.errors = s.errors)

/-- `StepS` lifted to the result (the carried state, ok or raised). -/
def StepC (s : St) (r : PRes) : Prop :=
  StepS s r.st

theorem stepS_rfl (s : St) : StepS s s :=
  ⟨Eq.refl _, Eq.refl _, fun h => ⟨h, Eq.refl _⟩⟩

theorem StepS.trans {s t u : St} (h1 : StepS s t) (h2 : StepS t u) : StepS s u := by
  obtain ⟨a1, b1, c1⟩ := h1
  obtain ⟨a2, b2, c2⟩ := h2
  refine ⟨a2.trans a1, b2.trans b1, fun h => ?_⟩
  obtain ⟨ht, he⟩ := c2 h
  obtain ⟨hs, he2⟩ := c1 ht
  exact ⟨hs, he.trans he2⟩

theorem stepC_ok (s : St) : StepC s (.ok s) := stepS_rfl s

theorem stepC_err (e : PyErr) (s : St) : StepC s (.err e s) := stepS_rfl s

theorem stepC_fail (s : St) (v : Viol) : StepC s (.ok (fail s v)) := by
  refine ⟨rfl, rfl, fun h => ?_⟩
  simp [fail, PRes.st] at h

theorem stepC_setNew (s : St) (nc : Value) : StepC s (.ok { s with newConfig := nc }) :=
  ⟨rfl, rfl, fun h => ⟨h, rfl⟩⟩

theorem stepC_setNewMac (s : St) (nc : Value) (n : Nat) :
    StepC s (.ok { s with newConfig := nc, macUsed := n }) :=
  ⟨rfl, rfl, fun h => ⟨h, rfl⟩⟩

theorem stepC_liftE {α : Type} (s : St) (x : Except PyErr α) (f : α → PRes)
    (h : ∀ a, StepC s (f a)) : StepC s (liftE s x f) := by
  cases x with
  | error e => exact stepC_err e s
  | ok a => exact h a

theorem stepC_bind {s : St} {r : PRes} {f : St → PRes}
    (h1 : StepC s r) (h2 : ∀ t, StepC t (f t)) : StepC s (r.bind f) := by
  cases r with
  | err e t => exact h1
  | ok t => exact StepS.trans h1 (h2 t)

theorem stepC_runList {α : Type} (f : α → St → PRes)
    (h : ∀ x t, StepC t (f x t)) : ∀ (xs : List α) (s : St), StepC s (runList f xs s) := by
  intro xs
  induction xs with
  | nil => intro s; exact stepC_ok s
  | cons x xs ih =>
      intro s
      exact stepC_bind (h x s) fun t => ih t

theorem filesEntry_stepC (env : Env) (machine hostFile : Value) (s : St) :
    StepC s (filesEntry env machine hostFile s) := by
  unfold filesEntry
  refine stepC_liftE s _ _ fun cdir => ?_
  split
  · split
    · refine stepC_liftE s _ _ fun pr => ?_
      refine stepC_liftE s _ _ fun nc => ?_
      exact stepC_setNew s nc
    · split
      · exact stepC_fail s _
      · exact stepC_ok s
  · exact stepC_err _ s

theorem validate_machine_files_parameters_stepC (env : Env) (machine : Value) (s : St) :
    StepC s (validate_machine_files_parameters env machine s) := by
  unfold validate_machine_files_parameters
  refine stepC_liftE s _ _ fun files => ?_
  split
  · exact stepC_runList _ (fun x t => filesEntry_stepC env machine x t) _ s
  · exact stepC_err _ s

theorem checkRoute_stepC (env : Env) (machine intName : Value) (ir : Nat × Value) (s : St) :
    StepC s (checkRoute env machine intName ir s) := by
  unfold checkRoute
  refine stepC_bind ?_ fun t => ?_
  · refine stepC_liftE s _ _ fun hasTo => ?_
    split
    · exact stepC_fail s _
    · refine stepC_liftE s _ _ fun tv => ?_
      split
      · exact stepC_ok s
      · split
        · refine stepC_liftE s _ _ fun nc => ?_
          exact stepC_setNew s nc
        · exact stepC_fail s _
  · refine stepC_liftE t _ _ fun hasVia => ?_
    split
    · exact stepC_fail t _
    · refine stepC_liftE t _ _ fun vv => ?_
      split
      · exact stepC_ok t
      · exact stepC_fail t _

theorem validate_interface_routes_stepC (env : Env) (routes : List Value)
    (intName machine : Value) (s : St) :
    StepC s (validate_interface_routes env routes intName machine s) :=
  stepC_runList _ (fun x t => checkRoute_stepC env machine intName x t) _ s

theorem checkInterface_stepC (env : Env) (machine : Value) (iv : Value × Value) (s : St) :
    StepC s (checkInterface env machine iv s) := by
  unfold checkInterface
  refine stepC_bind ?_ fun t => ?_
  · refine stepC_liftE s _ _ fun has4 => ?_
    split
    · exact stepC_ok s
    · refine stepC_liftE s _ _ fun v => ?_
      split
      · exact stepC_ok s
      · exact stepC_fail s _
  refine stepC_bind ?_ fun t => ?_
  · refine stepC_liftE t _ _ fun has6 => ?_
    split
    · exact stepC_ok t
    · refine stepC_liftE t _ _ fun v => ?_
      split
      · exact stepC_ok t
      · exact stepC_fail t _
  refine stepC_bind ?_ fun t => ?_
  · refine stepC_liftE t _ _ fun hasMac => ?_
    split
    · refine stepC_liftE t _ _ fun nc => ?_
      exact stepC_setNewMac t nc _
    · refine stepC_liftE t _ _ fun mv => ?_
      split
      · split
        · exact stepC_ok t
        · exact stepC_fail t _
      · exact stepC_err _ t
  refine stepC_bind ?_ fun t => ?_
  · refine stepC_liftE t _ _ fun hasBr => ?_
    split
    · exact stepC_fail t _
    · refine stepC_liftE t _ _ fun bv => ?_
      split
      · exact stepC_fail t _
      · refine stepC_liftE t _ _ fun sw => ?_
        refine stepC_liftE t _ _ fun bound => ?_
        split
        · exact stepC_fail t _
        · exact stepC_ok t
  · refine stepC_liftE t _ _ fun hasRoutes => ?_
    split
    · exact stepC_ok t
    · refine stepC_liftE t _ _ fun rv => ?_
      split
      · exact validate_interface_routes_stepC env _ _ _ t
      · exact stepC_fail t _

theorem validate_interface_config_stepC (env : Env) (machine : Value) (s : St) :
    StepC s (validate_interface_config env machine s) := by
  unfold validate_interface_config
  refine stepC_liftE s _ _ fun ifs => ?_
  split
  · exact stepC_runList _ (fun x t => checkInterface_stepC env machine x t) _ s
  · exact stepC_err _ s

theorem checkVlan_stepC (env : Env) (machine : Value) (nv : Value × Value) (s : St) :
    StepC s (checkVlan env machine nv s) := by
  unfold checkVlan
  refine stepC_bind ?_ fun t => ?_
  · refine stepC_liftE s _ _ fun hasId => ?_
    split
    · exact stepC_fail s _
    · refine stepC_liftE s _ _ fun idv => ?_
      split
      · refine stepC_liftE s _ _ fun nc => ?_
        exact stepC_setNew s nc
      · exact stepC_fail s _
      · exact stepC_err _ s
  refine stepC_bind ?_ fun t => ?_
  · refine stepC_liftE t _ _ fun hasLink => ?_
    split
    · exact stepC_fail t _
    · refine stepC_liftE t _ _ fun lv => ?_
      split
      · exact stepC_fail t _
      · split
        · refine stepC_liftE t _ _ fun ifs => ?_
          refine stepC_liftE t _ _ fun isMember => ?_
          split
          · exact stepC_fail t _
          · exact stepC_ok t
        · exact stepC_ok t
  · refine stepC_liftE t _ _ fun hasAddrs => ?_
    split
    · exact stepC_ok t
    · refine stepC_liftE t _ _ fun av => ?_
      split
      · refine stepC_runList _ (fun a u => ?_) _ t
        split
        · exact stepC_ok u
        · exact stepC_fail u _
      · exact stepC_fail t _

theorem validate_vlan_config_stepC (env : Env) (machine : Value) (s : St) :
    StepC s (validate_vlan_config env machine s) := by
  unfold validate_vlan_config
  refine stepC_liftE s _ _ fun vlans => ?_
  split
  · exact stepC_runList _ (fun x t => checkVlan_stepC env machine x t) _ s
  · exact stepC_err _ s

theorem checkBridgeSlave_stepC (machine brName slave : Value) (s : St) :
    StepC s (checkBridgeSlave machine brName slave s) := by
  unfold checkBridgeSlave
  refine stepC_liftE s _ _ fun ifs => ?_
  refine stepC_liftE s _ _ fun isMember => ?_
  split
  · exact stepC_fail s _
  · exact stepC_ok s

theorem checkBridge_stepC (env : Env) (machine : Value) (bv : Value × Value) (s : St) :
    StepC s (checkBridge env machine bv s) := by
  unfold checkBridge
  refine stepC_bind ?_ fun t => ?_
  · refine stepC_liftE s _ _ fun has4 => ?_
    split
    · exact stepC_ok s
    · refine stepC_liftE s _ _ fun v => ?_
      split
      · exact stepC_ok s
      · exact stepC_fail s _
  refine stepC_bind ?_ fun t => ?_
  · refine stepC_liftE t _ _ fun has6 => ?_
    split
    · exact stepC_ok t
    · refine stepC_liftE t _ _ fun v => ?_
      split
      · exact stepC_ok t
      · exact stepC_fail t _
  · refine stepC_liftE t _ _ fun hasSlaves => ?_
    split
    · exact stepC_fail t _
    · refine stepC_liftE t _ _ fun sv => ?_
      split
      · exact stepC_runList _ (fun x u => checkBridgeSlave_stepC machine _ x u) _ t
      · exact stepC_fail t _

theorem validate_machine_bridge_config_stepC (env : Env) (machine : Value) (s : St) :
    StepC s (validate_machine_bridge_config env machine s) := by
  unfold validate_machine_bridge_config
  refine stepC_liftE s _ _ fun bridges => ?_
  split
  · exact stepC_runList _ (fun x t => checkBridge_stepC env machine x t) _ s
  · exact stepC_err _ s

theorem checkMachineType_stepC (env : Env) (name values : Value) (s : St) :
    StepC s (checkMachineType env name values s) := by
  unfold checkMachineType
  refine stepC_liftE s _ _ fun hasType => ?_
  split
  · exact stepC_fail s _
  · refine stepC_liftE s _ _ fun t => ?_
    refine stepC_liftE s _ _ fun supported => ?_
    split
    · exact stepC_fail s _
    · exact stepC_ok s

theorem checkMachineFiles_stepC (env : Env) (name values : Value) (s : St) :
    StepC s (checkMachineFiles env name values s) := by
  unfold checkMachineFiles
  refine stepC_liftE s _ _ fun hasFiles => ?_
  split
  · exact stepC_ok s
  · refine stepC_liftE s _ _ fun fv => ?_
    split
    · exact stepC_fail s _
    · exact validate_machine_files_parameters_stepC env name s

theorem checkMachineInterfaces_stepC (env : Env) (name values : Value) (s : St) :
    StepC s (checkMachineInterfaces env name values s) := by
  unfold checkMachineInterfaces
  refine stepC_liftE s _ _ fun hasIfs => ?_
  split
  · exact stepC_fail s _
  · refine stepC_liftE s _ _ fun iv => ?_
    split
    · exact stepC_fail s _
    · exact validate_interface_config_stepC env name s

theorem checkMachineVlans_stepC (env : Env) (name values : Value) (s : St) :
    StepC s (checkMachineVlans env name values s) := by
  unfold checkMachineVlans
  refine stepC_liftE s _ _ fun hasVlans => ?_
  split
  · exact stepC_ok s
  · refine stepC_liftE s _ _ fun vv => ?_
    split
    · exact stepC_fail s _
    · exact validate_vlan_config_stepC env name s

theorem checkMachineBridges_stepC (env : Env) (name values : Value) (s : St) :
    StepC s (checkMachineBridges env name values s) := by
  unfold checkMachineBridges
  refine stepC_liftE s _ _ fun hasBridges => ?_
  split
  · exact stepC_ok s
  · refine stepC_liftE s _ _ fun bv => ?_
    split
    · exact stepC_fail s _
    · exact validate_machine_bridge_config_stepC env name s

theorem checkMachine_stepC (env : Env) (nv : Value × Value) (s : St) :
    StepC s (checkMachine env nv s) := by
  unfold checkMachine
  refine stepC_bind (checkMachineType_stepC env _ _ s) fun t => ?_
  refine stepC_bind (checkMachineFiles_stepC env _ _ t) fun t => ?_
  refine stepC_bind (checkMachineInterfaces_stepC env _ _ t) fun t => ?_
  refine stepC_bind (checkMachineVlans_stepC env _ _ t) fun t => ?_
  exact checkMachineBridges_stepC env _ _ t

theorem machineChecks_stepC (env : Env) (s : St) : StepC s (machineChecks env s) := by
  unfold machineChecks
  refine stepC_liftE s _ _ fun hasIt => ?_
  split
  · exact stepC_fail s _
  · refine stepC_liftE s _ _ fun ms => ?_
    split
    · exact stepC_runList _ (fun x t => checkMachine_stepC env x t) _ s
    · exact stepC_fail s _

theorem switchChecks_stepC (s : St) : StepC s (switchChecks s) := by
  unfold switchChecks
  refine stepC_liftE s _ _ fun hasIt => ?_
  split
  · exact stepC_fail s _
  · refine stepC_liftE s _ _ fun sw => ?_
    split
    · exact stepC_fail s _
    · exact stepC_ok s

theorem checkVeth_stepC (nv : Value × Value) (s : St) : StepC s (checkVeth nv s) := by
  unfold checkVeth
  split
  · exact stepC_fail s _
  · split
    · exact stepC_fail s _
    · refine stepC_bind ?_ fun t => ?_
      · refine stepC_liftE s _ _ fun hasBr => ?_
        split
        · exact stepC_fail s _
        · refine stepC_liftE s _ _ fun bv => ?_
          split
          · exact stepC_fail s _
          · exact stepC_ok s
      refine stepC_bind ?_ fun t => ?_
      · refine stepC_liftE t _ _ fun hasPeer => ?_
        split
        · exact stepC_ok t
        · refine stepC_liftE t _ _ fun pv => ?_
          split
          · exact stepC_fail t _
          · exact stepC_ok t
      · refine stepC_liftE t _ _ fun hasStp => ?_
        split
        · exact stepC_ok t
        · refine stepC_liftE t _ _ fun sv => ?_
          split
          · exact stepC_fail t _
          · exact stepC_ok t

theorem validate_veth_config_stepC (s : St) : StepC s (validate_veth_config s) := by
  unfold validate_veth_config
  refine stepC_liftE s _ _ fun hasIt => ?_
  split
  · exact stepC_ok s
  · refine stepC_liftE s _ _ fun vv => ?_
    split
    · exact stepC_runList _ (fun x t => checkVeth_stepC x t) _ s
    · exact stepC_fail s _

theorem validate_switch_config_stepC1 (s : St) :
    StepS1 s (validate_switch_config s).st := by
  have h := switchChecks_stepC { s with validatorsRan := s.validatorsRan + 1 }
  obtain ⟨h1, h2, h3⟩ := h
  exact ⟨h1, h2, h3⟩

theorem validate_machine_config_stepC1 (env : Env) (s : St) :
    StepS1 s (validate_machine_config env s).st := by
  have h := machineChecks_stepC env { s with validatorsRan := s.validatorsRan + 1 }
  obtain ⟨h1, h2, h3⟩ := h
  exact ⟨h1, h2, h3⟩

/-- What a full `validate()` run does to the state: the stored original
is untouched, the counter grows by exactly two on a normal completion
(by at most two when an exception escapes), and a final true flag means
no error was recorded during the run. -/
theorem validateSteps_behavior (env : Env) (s : St) :
    (validateSteps env s).st.config = s.config ∧
    ((validateSteps env s).st.allOk = true → (validateSteps env s).st.errors = s.errors) ∧
    (∀ t, validateSteps env s = .ok t → t.validatorsRan = s.validatorsRan + 2) := by
  unfold validateSteps
  have h1 := validate_switch_config_stepC1 s
  cases hr1 : validate_switch_config s with
  | err e t =>
      rw [hr1] at h1
      obtain ⟨a1, b1, c1⟩ := h1
      simp only [PRes.bind]
      exact ⟨a1, fun h => (c1 h).2, fun u hu => by simp at hu⟩
  | ok t =>
      rw [hr1] at h1
      obtain ⟨a1, b1, c1⟩ := h1
      simp only [PRes.bind]
      have h2 := validate_machine_config_stepC1 env t
      cases hr2 : validate_machine_config env t with
      | err e u =>
          rw [hr2] at h2
          obtain ⟨a2, b2, c2⟩ := h2
          simp only [PRes.bind]
          refine ⟨a2.trans a1, fun h => ?_, fun w hw => by simp at hw⟩
          exact ((c2 h).2).trans (c1 (c2 h).1).2
      | ok u =>
          rw [hr2] at h2
          obtain ⟨a2, b2, c2⟩ := h2
          simp only [PRes.st] at a2 b2 c2
          simp only [PRes.st] at a1 b1 c1
          simp only [PRes.bind]
          have h3 : StepC u (liftE u (pyContains u.config (VStr "veths")) fun hasVeths =>
              if hasVeths then validate_veth_config u else .ok u) := by
            refine stepC_liftE u _ _ fun hasVeths => ?_
            split
            · exact validate_veth_config_stepC u
            · exact stepC_ok u
          obtain ⟨a3, b3, c3⟩ := h3
          refine ⟨a3.trans (a2.trans a1), ?_, ?_⟩
          · intro h
            obtain ⟨hu, he3⟩ := c3 h
            obtain ⟨ht, he2⟩ := c2 hu
            exact he3.trans (he2.trans (c1 ht).2)
          · intro w hw
            have hws : w = (liftE u (pyContains u.config (VStr "veths")) fun hasVeths =>
                if hasVeths then validate_veth_config u else .ok u).st := by
              rw [hw]
              rfl
            rw [hws, b3, b2, b1]

/-!
## Claim theorems
-/

/-- **C1** (code behaviour at the failing input): the machine file entry
`data` does not resolve relative to `config_dir` (`/c/data` exists
neither as a directory nor as a file) but does exist as a file at the
path as given (`isfile "data"` is true).  The claim — and §4.4 of the
spec — says such a path must be accepted with the success flag
untouched; the code instead records a file violation and sets the flag
to false, because `elif not isdir(host_file) or not isfile(host_file)`
is true of every path (no path is both a directory and a file). -/
theorem C1_file_checker_code_behavior :
    exEnv.isfile "data" = true ∧
    exEnv.isdir (joinPath "/c" "data") = false ∧
    exEnv.isfile (joinPath "/c" "data") = false ∧
    (validate exEnv (initSt exCfgFileAbs)).st.allOk = false ∧
    (validate exEnv (initSt exCfgFileAbs)).st.errors
      = [.fileUnresolvable (VStr "m") (VStr "data")] :=
  ⟨rfl, rfl, rfl, rfl, rfl⟩

/-- **C2** (counterexample): a description with `switches: 1` and an
interface whose `bridge` is the integer `-1` completes a full run with
the success flag still true and no violation recorded — the claim says
a negative `bridge` value yields a false success flag. -/
theorem C2_counterexample_negative_bridge :
    pyGetPath exCfgNegBridge
      [VStr "machines", VStr "m", VStr "interfaces", VStr "e", VStr "bridge"]
      = .ok (VInt (-1)) ∧
    pySubscript exCfgNegBridge (VStr "switches") = .ok (VInt 1) ∧
    (validate exEnv (initSt exCfgNegBridge)).errOf = none ∧
    (validate exEnv (initSt exCfgNegBridge)).st.allOk = true ∧
    (validate exEnv (initSt exCfgNegBridge)).st.errors = [] :=
  ⟨rfl, rfl, rfl, rfl, rfl⟩

/-- **C2** (amended): for an interface whose `bridge` value is an
integer `b` (and whose `mac` is a valid literal, isolating the bridge
check), the interface checker fails exactly when `b > switches - 1`,
i.e. `b ≥ switches`; any `b < switches` — including every negative
value — leaves the state entirely unchanged.  There is no lower-bound
check. -/
theorem C2_amended_upper_bound_only (env : Env) (s : St) (machine intName : Value)
    (mc : String) (b sw : Int)
    (hmac : macRegexMatch mc = true)
    (hsw : pySubscript s.config (VStr "switches") = .ok (VInt sw)) :
    checkInterface env machine (intName, VDict [(VStr "mac", VStr mc), (VStr "bridge", VInt b)]) s
      = if b > sw - 1 then .ok (fail s (.bridgeInvalid machine intName)) else .ok s := by
  simp [checkInterface, liftE, PRes.bind, hmac, hsw,
    (show pyContains (VDict [(VStr "mac", VStr mc), (VStr "bridge", VInt b)]) (VStr "ipv4") = .ok false from rfl),
    (show pyContains (VDict [(VStr "mac", VStr mc), (VStr "bridge", VInt b)]) (VStr "ipv6") = .ok false from rfl),
    (show pyContains (VDict [(VStr "mac", VStr mc), (VStr "bridge", VInt b)]) (VStr "mac") = .ok true from rfl),
    (show pyContains (VDict [(VStr "mac", VStr mc), (VStr "bridge", VInt b)]) (VStr "bridge") = .ok true from rfl),
    (show pyContains (VDict [(VStr "mac", VStr mc), (VStr "bridge", VInt b)]) (VStr "routes") = .ok false from rfl),
    (show pySubscript (VDict [(VStr "mac", VStr mc), (VStr "bridge", VInt b)]) (VStr "mac") = .ok (VStr mc) from rfl),
    (show pySubscript (VDict [(VStr "mac", VStr mc), (VStr "bridge", VInt b)]) (VStr "bridge") = .ok (VInt b) from rfl),
    (show pyIsInt (VInt b) = true from rfl),
    (show pySubOne (VInt sw) = .ok (sw - 1) from rfl),
    (show pyToInt (VInt b) = b from rfl)]
  by_cases h : sw - 1 < b <;> simp [h, PRes.bind]

/-- Witness for C2 (amended): with `switches = 1` and `bridge = -1`, the
interface checker accepts the interface and leaves the state unchanged. -/
theorem C2_amended_upper_bound_only_witness :
    checkInterface exEnv (VStr "m")
      (VStr "e", VDict [(VStr "mac", VStr "aa:bb:cc:dd:ee:ff"), (VStr "bridge", VInt (-1))])
      (initSt exCfgNegBridge) = .ok (initSt exCfgNegBridge) := by
  have h := C2_amended_upper_bound_only exEnv (initSt exCfgNegBridge) (VStr "m") (VStr "e")
    "aa:bb:cc:dd:ee:ff" (-1) 1 rfl rfl
  simpa using h

/-- **C3** (code behaviour at the failing inputs): the claim says a full
run never raises.  The code raises: a `KeyError` when `switches` is
absent while an interface carries an integer `bridge` (the bound check
reads `self.config["switches"]` unguarded), and a `TypeError` both when
a VLAN `id` is `None` (only `ValueError` is caught around `int(...)`)
and when a `mac` value is an integer (`re.fullmatch` rejects
non-strings). -/
theorem C3_code_behavior_raises :
    (validate exEnv (initSt exCfgNoSwitches)).errOf = some .keyError ∧
    (validate exEnv (initSt exCfgVlanNone)).errOf = some .typeError ∧
    (validate exEnv (initSt exCfgMacInt)).errOf = some .typeError :=
  ⟨rfl, rfl, rfl⟩

/-- **C4**: for a VLAN whose `link` is a string naming no key of the
owning machine's `interfaces`, the dangling-reference check runs only
when the shared success flag is still true at that moment: from a state
with the flag already false (any earlier violation, even in an
unrelated machine), the VLAN entry is processed without recording any
violation (the error log is unchanged); from a flag-true state the
dangling link is recorded and the flag set to false. -/
theorem C4_dangling_link_gated_on_flag (env : Env) (s : St) (machine vn : Value) (lnk : String)
    (i : Int) (ifs nc : Value)
    (hwr : pySetPath s.newConfig [VStr "machines", machine, VStr "vlans", vn, VStr "id"] (VInt i)
             = .ok nc)
    (hifs : pyGetPath s.config [VStr "machines", machine, VStr "interfaces"] = .ok ifs)
    (hmem : pyContains ifs (VStr lnk) = .ok false) :
    checkVlan env machine (vn, VDict [(VStr "id", VInt i), (VStr "link", VStr lnk)]) s =
      if s.allOk then
        .ok (fail { s with newConfig := nc } (.vlanLinkDangling machine vn (VStr lnk)))
      else .ok { s with newConfig := nc } := by
  simp [checkVlan, liftE, PRes.bind, hwr, hifs, hmem,
    (show pyContains (VDict [(VStr "id", VInt i), (VStr "link", VStr lnk)]) (VStr "id") = .ok true from rfl),
    (show pyContains (VDict [(VStr "id", VInt i), (VStr "link", VStr lnk)]) (VStr "link") = .ok true from rfl),
    (show pyContains (VDict [(VStr "id", VInt i), (VStr "link", VStr lnk)]) (VStr "addresses") = .ok false from rfl),
    (show pySubscript (VDict [(VStr "id", VInt i), (VStr "link", VStr lnk)]) (VStr "id") = .ok (VInt i) from rfl),
    (show pySubscript (VDict [(VStr "id", VInt i), (VStr "link", VStr lnk)]) (VStr "link") = .ok (VStr lnk) from rfl),
    (show pyIntCoerce (VInt i) = .ok i from rfl),
    (show pyIsStr (VStr lnk) = true from rfl)]
  by_cases h : s.allOk = true <;> simp [h, PRes.bind]

/-- Witness for C4: on a fresh (flag-true) state over
`exCfgVlanDangling`, the dangling link `ethX` is recorded. -/
theorem C4_dangling_link_gated_on_flag_witness :
    checkVlan exEnv (VStr "m")
      (VStr "v10", VDict [(VStr "id", VInt 10), (VStr "link", VStr "ethX")])
      (initSt exCfgVlanDangling)
      = .ok (fail { initSt exCfgVlanDangling with newConfig := exCfgVlanDangling }
          (.vlanLinkDangling (VStr "m") (VStr "v10") (VStr "ethX"))) := by
  have h := C4_dangling_link_gated_on_flag exEnv (initSt exCfgVlanDangling)
    (VStr "m") (VStr "v10") "ethX" 10
    (VDict [(VStr "e", exIface 0)]) exCfgVlanDangling rfl rfl rfl
  simpa using h

/-- **C5** (counterexample): the original files directive is
`{f: None}`; a first run completes normally and rewrites the normalized
copy's key to `/c/f`.  A second `validate()` call on the same object
does NOT start from a fresh copy of the original (the rewritten key is
still there) and in fact raises `KeyError` (the file checker pops `f`,
already gone from the copy), so the second run's outcome differs from
the fresh single run. -/
theorem C5_counterexample_copy_not_rederived :
    pyGetPath exCfgFileRel [VStr "machines", VStr "m", VStr "files"]
      = .ok (VDict [(VStr "f", VNone)]) ∧
    (validate exEnv (initSt exCfgFileRel)).errOf = none ∧
    pyGetPath (validate exEnv (initSt exCfgFileRel)).st.newConfig
      [VStr "machines", VStr "m", VStr "files"] = .ok (VDict [(VStr "/c/f", VNone)]) ∧
    (validate exEnv (validate exEnv (initSt exCfgFileRel)).st).errOf = some .keyError :=
  ⟨rfl, rfl, rfl, rfl⟩

/-- **C5** (amended): a repeated `validate()` call resets only the
success flag — the run's outcome is independent of the incoming flag —
accumulates the run counter (+2 per completed run) and never touches
the stored original; the normalized copy is NOT re-derived from the
original, so corrections from the first run persist into the second
run's starting state (concrete conjuncts: the rewritten file key is
still present, and the rerun raises `KeyError` instead of matching a
fresh run). -/
theorem C5_amended_reuse_behavior (env : Env) (s : St) (b : Bool) :
    validate env { s with allOk := b } = validate env s ∧
    (∀ t, validate env s = .ok t → t.validatorsRan = s.validatorsRan + 2) ∧
    (validate env s).st.config = s.config ∧
    pyGetPath (validate exEnv (initSt exCfgFileRel)).st.newConfig
      [VStr "machines", VStr "m", VStr "files"] = .ok (VDict [(VStr "/c/f", VNone)]) ∧
    (validate exEnv (validate exEnv (initSt exCfgFileRel)).st).errOf = some .keyError :=
  ⟨rfl, (validateSteps_behavior env { s with allOk := true }).2.2,
   (validateSteps_behavior env { s with allOk := true }).1, rfl, rfl⟩

/-- Witness for C5 (amended): a completed run over `exCfgVeths`
accumulates the counter by exactly two. -/
theorem C5_amended_reuse_behavior_witness :
    (validate exEnv (initSt exCfgVeths)).st.validatorsRan
      = (initSt exCfgVeths).validatorsRan + 2 :=
  (C5_amended_reuse_behavior exEnv (initSt exCfgVeths) false).2.1
    ((validate exEnv (initSt exCfgVeths)).st) rfl

/-- **C6** (counterexample): on a description with a `veths` section and
a machine with interfaces, a full run completes normally having invoked
the switch, machine, file/interface and veth checkers, yet the run
counter is `2` — only the switch checker and the machine checker
increment it, not each individual checker as the claim says. -/
theorem C6_counterexample_two_increments :
    pyContains exCfgVeths (VStr "veths") = .ok true ∧
    (validate exEnv (initSt exCfgVeths)).errOf = none ∧
    (validate exEnv (initSt exCfgVeths)).st.validatorsRan = 2 :=
  ⟨rfl, rfl, rfl⟩

/-- **C6** (amended): per `validate()` run the counter grows by exactly
two on normal completion — one increment in the switch checker and one
in the machine checker, both unconditional — while the file, interface,
route, VLAN, bridge and veth checkers never touch it. -/
theorem C6_amended_counter_behavior (env : Env) (s : St) (machine intName : Value)
    (routes : List Value) :
    (∀ t, validate env s = .ok t → t.validatorsRan = s.validatorsRan + 2) ∧
    (validate_switch_config s).st.validatorsRan = s.validatorsRan + 1 ∧
    (validate_machine_config env s).st.validatorsRan = s.validatorsRan + 1 ∧
    (validate_veth_config s).st.validatorsRan = s.validatorsRan ∧
    (validate_machine_files_parameters env machine s).st.validatorsRan = s.validatorsRan ∧
    (validate_interface_config env machine s).st.validatorsRan = s.validatorsRan ∧
    (validate_interface_routes env routes intName machine s).st.validatorsRan = s.validatorsRan ∧
    (validate_vlan_config env machine s).st.validatorsRan = s.validatorsRan ∧
    (validate_machine_bridge_config env machine s).st.validatorsRan = s.validatorsRan :=
  ⟨(validateSteps_behavior env { s with allOk := true }).2.2,
   (validate_switch_config_stepC1 s).2.1,
   (validate_machine_config_stepC1 env s).2.1,
   (validate_veth_config_stepC s).2.1,
   (validate_machine_files_parameters_stepC env machine s).2.1,
   (validate_interface_config_stepC env machine s).2.1,
   (validate_interface_routes_stepC env routes intName machine s).2.1,
   (validate_vlan_config_stepC env machine s).2.1,
   (validate_machine_bridge_config_stepC env machine s).2.1⟩

/-- Witness for C6 (amended): a completed run over `exCfgNegBridge`
(the veth-free description) grows the counter from 0 to 2. -/
theorem C6_amended_counter_behavior_witness :
    (validate exEnv (initSt exCfgNegBridge)).st.validatorsRan
      = (initSt exCfgNegBridge).validatorsRan + 2 :=
  (C6_amended_counter_behavior exEnv (initSt exCfgNegBridge) VNone VNone []).1
    ((validate exEnv (initSt exCfgNegBridge)).st) rfl

/-- **C7**: a route whose `to` is exactly the string `default` (which
the network parser rejects) has its `to` rewritten to `0.0.0.0/0` in the
normalized copy, with the success flag and error log untouched; a route
whose `to` is any other value rejected by the network parser records a
violation and sets the flag to false (its `via` being valid in both
cases, isolating the `to` handling). -/
theorem C7_default_route_rewrite (env : Env) (s : St) (machine intName via tv : Value)
    (idx : Nat) (nc : Value)
    (hdef : env.ipNetworkOk (VStr "default") = false)
    (hvia : env.ipAddressOk via = true)
    (hwr : pySetPath s.newConfig [VStr "machines", machine, VStr "interfaces", intName,
             VStr "routes", VInt (idx : Int), VStr "to"] (VStr "0.0.0.0/0") = .ok nc)
    (htv : env.ipNetworkOk tv = false)
    (hne : pyEq tv (VStr "default") = false) :
    checkRoute env machine intName (idx, VDict [(VStr "to", VStr "default"), (VStr "via", via)]) s
      = .ok { s with newConfig := nc } ∧
    checkRoute env machine intName (idx, VDict [(VStr "to", tv), (VStr "via", via)]) s
      = .ok (fail s (.routeToInvalid machine intName idx tv)) := by
  constructor
  · simp [checkRoute, liftE, PRes.bind, hdef, hvia, hwr,
      (show pyContains (VDict [(VStr "to", VStr "default"), (VStr "via", via)]) (VStr "to") = .ok true from rfl),
      (show pyContains (VDict [(VStr "to", VStr "default"), (VStr "via", via)]) (VStr "via") = .ok true from rfl),
      (show pySubscript (VDict [(VStr "to", VStr "default"), (VStr "via", via)]) (VStr "to") = .ok (VStr "default") from rfl),
      (show pySubscript (VDict [(VStr "to", VStr "default"), (VStr "via", via)]) (VStr "via") = .ok via from rfl),
      (show pyEq (VStr "default") (VStr "default") = true from rfl)]
  · simp [checkRoute, liftE, PRes.bind, htv, hne, hvia,
      (show pyContains (VDict [(VStr "to", tv), (VStr "via", via)]) (VStr "to") = .ok true from rfl),
      (show pyContains (VDict [(VStr "to", tv), (VStr "via", via)]) (VStr "via") = .ok true from rfl),
      (show pySubscript (VDict [(VStr "to", tv), (VStr "via", via)]) (VStr "to") = .ok tv from rfl),
      (show pySubscript (VDict [(VStr "to", tv), (VStr "via", via)]) (VStr "via") = .ok via from rfl),
      fail]

/-- Witness for C7: over `exCfgRoute`'s state, the `default` route is
rewritten to `0.0.0.0/0` and an unparseable literal `999.zzz` fails. -/
theorem C7_default_route_rewrite_witness :
    checkRoute exEnv (VStr "m") (VStr "e")
      (0, VDict [(VStr "to", VStr "default"), (VStr "via", VStr "10.0.0.1")])
      (initSt exCfgRoute)
      = .ok { initSt exCfgRoute with newConfig := exCfgRouteFixed } ∧
    checkRoute exEnv (VStr "m") (VStr "e")
      (0, VDict [(VStr "to", VStr "999.zzz"), (VStr "via", VStr "10.0.0.1")])
      (initSt exCfgRoute)
      = .ok (fail (initSt exCfgRoute)
          (.routeToInvalid (VStr "m") (VStr "e") 0 (VStr "999.zzz"))) :=
  C7_default_route_rewrite exEnv (initSt exCfgRoute) (VStr "m") (VStr "e")
    (VStr "10.0.0.1") (VStr "999.zzz") 0 exCfgRouteFixed rfl rfl rfl rfl rfl

set_option maxHeartbeats 1000000 in
/-- **C8**: over a one-machine/one-interface description (symbolic
machine and interface names, switch count, machine type): when the
interface has no `mac`, a full run completes with the flag true and the
normalized copy holds the freshly generated MAC for that interface,
which matches the canonical pattern by the generator's contract — the
generation does not affect the flag; when the interface's `mac` string
does not match the pattern, the flag is false after the run. -/
theorem C8_mac_generation (env : Env) (m i : String) (sw : Int) (t : Value) (mb : String)
    (hgen : ∀ n, macRegexMatch (env.macGen n) = true)
    (hsup : pyContains env.supportedMachineTypes t = .ok true)
    (hsw : 1 ≤ sw)
    (hbad : macRegexMatch mb = false) :
    ((validate env (initSt (oneIfaceCfg m i sw t (VDict [(VStr "bridge", VInt 0)])))).st.allOk = true ∧
     pyGetPath (validate env (initSt (oneIfaceCfg m i sw t (VDict [(VStr "bridge", VInt 0)])))).st.newConfig
       [VStr "machines", VStr m, VStr "interfaces", VStr i, VStr "mac"] = .ok (VStr (env.macGen 0)) ∧
     macRegexMatch (env.macGen 0) = true) ∧
    (validate env (initSt (oneIfaceCfg m i sw t (VDict [(VStr "mac", VStr mb), (VStr "bridge", VInt 0)])))).st.allOk = false := by
  have hget : pyGetPath (VDict [(VStr "switches", VInt sw), (VStr "machines", (VDict [(VStr m, (VDict [(VStr "type", t), (VStr "interfaces", VDict [(VStr i, (VDict [(VStr "bridge", VInt 0)]))])]))]))])
      [VStr "machines", VStr m, VStr "interfaces"]
      = .ok (VDict [(VStr i, (VDict [(VStr "bridge", VInt 0)]))]) := by
    simp [pyGetPath, pySubscript, pyEq, pyHashable, List.find?]
  have hset : pySetPath (VDict [(VStr "switches", VInt sw), (VStr "machines", (VDict [(VStr m, (VDict [(VStr "type", t), (VStr "interfaces", VDict [(VStr i, (VDict [(VStr "bridge", VInt 0)]))])]))]))])
      [VStr "machines", VStr m, VStr "interfaces", VStr i, VStr "mac"] (VStr (env.macGen 0))
      = .ok (VDict [(VStr "switches", VInt sw), (VStr "machines", (VDict [(VStr m, (VDict [(VStr "type", t), (VStr "interfaces", VDict [(VStr i, (VDict [(VStr "bridge", VInt 0), (VStr "mac", VStr (env.macGen 0))]))])]))]))]) := by
    simp [pySetPath, pySubscript, pyStoreItem, dictStore, pyEq, pyHashable, List.find?]
  have hget2 : pyGetPath (VDict [(VStr "switches", VInt sw), (VStr "machines", (VDict [(VStr m, (VDict [(VStr "type", t), (VStr "interfaces", VDict [(VStr i, (VDict [(VStr "bridge", VInt 0), (VStr "mac", VStr (env.macGen 0))]))])]))]))])
      [VStr "machines", VStr m, VStr "interfaces", VStr i, VStr "mac"]
      = .ok (VStr (env.macGen 0)) := by
    simp [pyGetPath, pySubscript, pyEq, pyHashable, List.find?]
  have hgetB : pyGetPath (VDict [(VStr "switches", VInt sw), (VStr "machines", (VDict [(VStr m, (VDict [(VStr "type", t), (VStr "interfaces", VDict [(VStr i, (VDict [(VStr "mac", VStr mb), (VStr "bridge", VInt 0)]))])]))]))])
      [VStr "machines", VStr m, VStr "interfaces"]
      = .ok (VDict [(VStr i, (VDict [(VStr "mac", VStr mb), (VStr "bridge", VInt 0)]))]) := by
    simp [pyGetPath, pySubscript, pyEq, pyHashable, List.find?]
  have hrun : validate env (initSt (oneIfaceCfg m i sw t (VDict [(VStr "bridge", VInt 0)])))
      = .ok { config := oneIfaceCfg m i sw t (VDict [(VStr "bridge", VInt 0)]),
              newConfig := (VDict [(VStr "switches", VInt sw), (VStr "machines", (VDict [(VStr m, (VDict [(VStr "type", t), (VStr "interfaces", VDict [(VStr i, (VDict [(VStr "bridge", VInt 0), (VStr "mac", VStr (env.macGen 0))]))])]))]))]),
              allOk := true, validatorsRan := 2, errors := [], macUsed := 1 } := by
    simp [validate, validateSteps, validate_switch_config, switchChecks,
      validate_machine_config, machineChecks, checkMachine, checkMachineType, checkMachineFiles,
      checkMachineInterfaces, checkMachineVlans, checkMachineBridges, validate_interface_config,
      checkInterface, validate_veth_config, runList, liftE, PRes.bind, initSt, oneIfaceCfg,
      hsup, hget, hset, pyIsInt, pyIsDict, pySubOne, pyToInt,
      (show ¬((0:Int) > sw - 1) from by omega),
      (show pyContains (VDict [(VStr "switches", VInt sw), (VStr "machines", (VDict [(VStr m, (VDict [(VStr "type", t), (VStr "interfaces", VDict [(VStr i, (VDict [(VStr "bridge", VInt 0)]))])]))]))]) (VStr "switches") = .ok true from rfl),
      (show pySubscript (VDict [(VStr "switches", VInt sw), (VStr "machines", (VDict [(VStr m, (VDict [(VStr "type", t), (VStr "interfaces", VDict [(VStr i, (VDict [(VStr "bridge", VInt 0)]))])]))]))]) (VStr "switches") = .ok (VInt sw) from rfl),
      (show pyContains (VDict [(VStr "switches", VInt sw), (VStr "machines", (VDict [(VStr m, (VDict [(VStr "type", t), (VStr "interfaces", VDict [(VStr i, (VDict [(VStr "bridge", VInt 0)]))])]))]))]) (VStr "machines") = .ok true from rfl),
      (show pySubscript (VDict [(VStr "switches", VInt sw), (VStr "machines", (VDict [(VStr m, (VDict [(VStr "type", t), (VStr "interfaces", VDict [(VStr i, (VDict [(VStr "bridge", VInt 0)]))])]))]))]) (VStr "machines") = .ok (VDict [(VStr m, (VDict [(VStr "type", t), (VStr "interfaces", VDict [(VStr i, (VDict [(VStr "bridge", VInt 0)]))])]))]) from rfl),
      (show pyContains (VDict [(VStr "switches", VInt sw), (VStr "machines", (VDict [(VStr m, (VDict [(VStr "type", t), (VStr "interfaces", VDict [(VStr i, (VDict [(VStr "bridge", VInt 0)]))])]))]))]) (VStr "veths") = .ok false from rfl),
      (show pyContains (VDict [(VStr "type", t), (VStr "interfaces", VDict [(VStr i, (VDict [(VStr "bridge", VInt 0)]))])]) (VStr "type") = .ok true from rfl),
      (show pySubscript (VDict [(VStr "type", t), (VStr "interfaces", VDict [(VStr i, (VDict [(VStr "bridge", VInt 0)]))])]) (VStr "type") = .ok t from rfl),
      (show pyContains (VDict [(VStr "type", t), (VStr "interfaces", VDict [(VStr i, (VDict [(VStr "bridge", VInt 0)]))])]) (VStr "files") = .ok false from rfl),
      (show pyContains (VDict [(VStr "type", t), (VStr "interfaces", VDict [(VStr i, (VDict [(VStr "bridge", VInt 0)]))])]) (VStr "interfaces") = .ok true from rfl),
      (show pySubscript (VDict [(VStr "type", t), (VStr "interfaces", VDict [(VStr i, (VDict [(VStr "bridge", VInt 0)]))])]) (VStr "interfaces") = .ok (VDict [(VStr i, (VDict [(VStr "bridge", VInt 0)]))]) from rfl),
      (show pyContains (VDict [(VStr "type", t), (VStr "interfaces", VDict [(VStr i, (VDict [(VStr "bridge", VInt 0)]))])]) (VStr "vlans") = .ok false from rfl),
      (show pyContains (VDict [(VStr "type", t), (VStr "interfaces", VDict [(VStr i, (VDict [(VStr "bridge", VInt 0)]))])]) (VStr "bridges") = .ok false from rfl),
      (show pyContains (VDict [(VStr "bridge", VInt 0)]) (VStr "ipv4") = .ok false from rfl),
      (show pyContains (VDict [(VStr "bridge", VInt 0)]) (VStr "ipv6") = .ok false from rfl),
      (show pyContains (VDict [(VStr "bridge", VInt 0)]) (VStr "bridge") = .ok true from rfl),
      (show pyContains (VDict [(VStr "bridge", VInt 0)]) (VStr "routes") = .ok false from rfl),
      (show pySubscript (VDict [(VStr "bridge", VInt 0)]) (VStr "bridge") = .ok (VInt 0) from rfl),
      (show pyContains (VDict [(VStr "bridge", VInt 0)]) (VStr "mac") = .ok false from rfl)]
  have hrun2 : validate env (initSt (oneIfaceCfg m i sw t (VDict [(VStr "mac", VStr mb), (VStr "bridge", VInt 0)])))
      = .ok { config := oneIfaceCfg m i sw t (VDict [(VStr "mac", VStr mb), (VStr "bridge", VInt 0)]),
              newConfig := oneIfaceCfg m i sw t (VDict [(VStr "mac", VStr mb), (VStr "bridge", VInt 0)]),
              allOk := false, validatorsRan := 2,
              errors := [.macInvalid (VStr m) (VStr i) (VStr mb)], macUsed := 0 } := by
    simp [validate, validateSteps, validate_switch_config, switchChecks,
      validate_machine_config, machineChecks, checkMachine, checkMachineType, checkMachineFiles,
      checkMachineInterfaces, checkMachineVlans, checkMachineBridges, validate_interface_config,
      checkInterface, validate_veth_config, runList, liftE, PRes.bind, initSt, oneIfaceCfg,
      hsup, hgetB, hbad, fail, pyIsInt, pyIsDict, pySubOne, pyToInt,
      (show ¬((0:Int) > sw - 1) from by omega),
      (show pyContains (VDict [(VStr "switches", VInt sw), (VStr "machines", (VDict [(VStr m, (VDict [(VStr "type", t), (VStr "interfaces", VDict [(VStr i, (VDict [(VStr "mac", VStr mb), (VStr "bridge", VInt 0)]))])]))]))]) (VStr "switches") = .ok true from rfl),
      (show pySubscript (VDict [(VStr "switches", VInt sw), (VStr "machines", (VDict [(VStr m, (VDict [(VStr "type", t), (VStr "interfaces", VDict [(VStr i, (VDict [(VStr "mac", VStr mb), (VStr "bridge", VInt 0)]))])]))]))]) (VStr "switches") = .ok (VInt sw) from rfl),
      (show pyContains (VDict [(VStr "switches", VInt sw), (VStr "machines", (VDict [(VStr m, (VDict [(VStr "type", t), (VStr "interfaces", VDict [(VStr i, (VDict [(VStr "mac", VStr mb), (VStr "bridge", VInt 0)]))])]))]))]) (VStr "machines") = .ok true from rfl),
      (show pySubscript (VDict [(VStr "switches", VInt sw), (VStr "machines", (VDict [(VStr m, (VDict [(VStr "type", t), (VStr "interfaces", VDict [(VStr i, (VDict [(VStr "mac", VStr mb), (VStr "bridge", VInt 0)]))])]))]))]) (VStr "machines") = .ok (VDict [(VStr m, (VDict [(VStr "type", t), (VStr "interfaces", VDict [(VStr i, (VDict [(VStr "mac", VStr mb), (VStr "bridge", VInt 0)]))])]))]) from rfl),
      (show pyContains (VDict [(VStr "switches", VInt sw), (VStr "machines", (VDict [(VStr m, (VDict [(VStr "type", t), (VStr "interfaces", VDict [(VStr i, (VDict [(VStr "mac", VStr mb), (VStr "bridge", VInt 0)]))])]))]))]) (VStr "veths") = .ok false from rfl),
      (show pyContains (VDict [(VStr "type", t), (VStr "interfaces", VDict [(VStr i, (VDict [(VStr "mac", VStr mb), (VStr "bridge", VInt 0)]))])]) (VStr "type") = .ok true from rfl),
      (show pySubscript (VDict [(VStr "type", t), (VStr "interfaces", VDict [(VStr i, (VDict [(VStr "mac", VStr mb), (VStr "bridge", VInt 0)]))])]) (VStr "type") = .ok t from rfl),
      (show pyContains (VDict [(VStr "type", t), (VStr "interfaces", VDict [(VStr i, (VDict [(VStr "mac", VStr mb), (VStr "bridge", VInt 0)]))])]) (VStr "files") = .ok false from rfl),
      (show pyContains (VDict [(VStr "type", t), (VStr "interfaces", VDict [(VStr i, (VDict [(VStr "mac", VStr mb), (VStr "bridge", VInt 0)]))])]) (VStr "interfaces") = .ok true from rfl),
      (show pySubscript (VDict [(VStr "type", t), (VStr "interfaces", VDict [(VStr i, (VDict [(VStr "mac", VStr mb), (VStr "bridge", VInt 0)]))])]) (VStr "interfaces") = .ok (VDict [(VStr i, (VDict [(VStr "mac", VStr mb), (VStr "bridge", VInt 0)]))]) from rfl),
      (show pyContains (VDict [(VStr "type", t), (VStr "interfaces", VDict [(VStr i, (VDict [(VStr "mac", VStr mb), (VStr "bridge", VInt 0)]))])]) (VStr "vlans") = .ok false from rfl),
      (show pyContains (VDict [(VStr "type", t), (VStr "interfaces", VDict [(VStr i, (VDict [(VStr "mac", VStr mb), (VStr "bridge", VInt 0)]))])]) (VStr "bridges") = .ok false from rfl),
      (show pyContains (VDict [(VStr "mac", VStr mb), (VStr "bridge", VInt 0)]) (VStr "ipv4") = .ok false from rfl),
      (show pyContains (VDict [(VStr "mac", VStr mb), (VStr "bridge", VInt 0)]) (VStr "ipv6") = .ok false from rfl),
      (show pyContains (VDict [(VStr "mac", VStr mb), (VStr "bridge", VInt 0)]) (VStr "bridge") = .ok true from rfl),
      (show pyContains (VDict [(VStr "mac", VStr mb), (VStr "bridge", VInt 0)]) (VStr "routes") = .ok false from rfl),
      (show pySubscript (VDict [(VStr "mac", VStr mb), (VStr "bridge", VInt 0)]) (VStr "bridge") = .ok (VInt 0) from rfl),
      (show pyContains (VDict [(VStr "mac", VStr mb), (VStr "bridge", VInt 0)]) (VStr "mac") = .ok true from rfl),
      (show pySubscript (VDict [(VStr "mac", VStr mb), (VStr "bridge", VInt 0)]) (VStr "mac") = .ok (VStr mb) from rfl)]
  refine ⟨⟨?_, ?_, hgen 0⟩, ?_⟩
  · rw [hrun]; rfl
  · rw [hrun]; exact hget2
  · rw [hrun2]; rfl

/-- Witness for C8: concrete instantiation with the constant generator
of `exEnv`, machine `m`, interface `e`, one switch, type `host`, and the
invalid literal `xx`. -/
theorem C8_mac_generation_witness :
    (validate exEnv (initSt (oneIfaceCfg "m" "e" 1 (VStr "host")
      (VDict [(VStr "bridge", VInt 0)])))).st.allOk = true ∧
    (validate exEnv (initSt (oneIfaceCfg "m" "e" 1 (VStr "host")
      (VDict [(VStr "mac", VStr "xx"), (VStr "bridge", VInt 0)])))).st.allOk = false :=
  ⟨(C8_mac_generation exEnv "m" "e" 1 (VStr "host") "xx"
      (fun _ => rfl) rfl (by decide) rfl).1.1,
   (C8_mac_generation exEnv "m" "e" 1 (VStr "host") "xx"
      (fun _ => rfl) rfl (by decide) rfl).2⟩

/-- **C9**: no checker and no full run ever mutates the stored original
description: construction deep-copies it, and after any run (normal or
raising) the stored original equals the input as supplied; every
individual checker likewise preserves it. -/
theorem C9_original_never_mutated (env : Env) (cfg : Value) (s : St) (machine intName : Value)
    (routes : List Value) :
    (initSt cfg).config = cfg ∧
    (initSt cfg).newConfig = cfg ∧
    (validate env s).st.config = s.config ∧
    (validate_switch_config s).st.config = s.config ∧
    (validate_machine_config env s).st.config = s.config ∧
    (validate_machine_files_parameters env machine s).st.config = s.config ∧
    (validate_interface_config env machine s).st.config = s.config ∧
    (validate_interface_routes env routes intName machine s).st.config = s.config ∧
    (validate_vlan_config env machine s).st.config = s.config ∧
    (validate_machine_bridge_config env machine s).st.config = s.config ∧
    (validate_veth_config s).st.config = s.config :=
  ⟨rfl, rfl,
   (validateSteps_behavior env { s with allOk := true }).1,
   (validate_switch_config_stepC1 s).1,
   (validate_machine_config_stepC1 env s).1,
   (validate_machine_files_parameters_stepC env machine s).1,
   (validate_interface_config_stepC env machine s).1,
   (validate_interface_routes_stepC env routes intName machine s).1,
   (validate_vlan_config_stepC env machine s).1,
   (validate_machine_bridge_config_stepC env machine s).1,
   (validate_veth_config_stepC s).1⟩

/-- **C10**: within a run the success flag is monotone — every checker
either leaves it unchanged or sets it to false, never back to true — so
a full run ending with the flag true recorded no violation after the
reset; and for every individual checker, a true flag afterwards implies
a true flag before with an unchanged error log. -/
theorem C10_flag_monotone (env : Env) (s : St) (machine intName : Value)
    (routes : List Value) :
    ((validate env s).st.allOk = true → (validate env s).st.errors = s.errors) ∧
    ((validate_switch_config s).st.allOk = true →
      s.allOk = true ∧ (validate_switch_config s).st.errors = s.errors) ∧
    ((validate_machine_config env s).st.allOk = true →
      s.allOk = true ∧ (validate_machine_config env s).st.errors = s.errors) ∧
    ((validate_machine_files_parameters env machine s).st.allOk = true →
      s.allOk = true ∧ (validate_machine_files_parameters env machine s).st.errors = s.errors) ∧
    ((validate_interface_config env machine s).st.allOk = true →
      s.allOk = true ∧ (validate_interface_config env machine s).st.errors = s.errors) ∧
    ((validate_interface_routes env routes intName machine s).st.allOk = true →
      s.allOk = true ∧ (validate_interface_routes env routes intName machine s).st.errors = s.errors) ∧
    ((validate_vlan_config env machine s).st.allOk = true →
      s.allOk = true ∧ (validate_vlan_config env machine s).st.errors = s.errors) ∧
    ((validate_machine_bridge_config env machine s).st.allOk = true →
      s.allOk = true ∧ (validate_machine_bridge_config env machine s).st.errors = s.errors) ∧
    ((validate_veth_config s).st.allOk = true →
      s.allOk = true ∧ (validate_veth_config s).st.errors = s.errors) :=
  ⟨(validateSteps_behavior env { s with allOk := true }).2.1,
   (validate_switch_config_stepC1 s).2.2,
   (validate_machine_config_stepC1 env s).2.2,
   (validate_machine_files_parameters_stepC env machine s).2.2,
   (validate_interface_config_stepC env machine s).2.2,
   (validate_interface_routes_stepC env routes intName machine s).2.2,
   (validate_vlan_config_stepC env machine s).2.2,
   (validate_machine_bridge_config_stepC env machine s).2.2,
   (validate_veth_config_stepC s).2.2⟩

/-- Witness for C10: the run over `exCfgVeths` ends with the flag true,
so (applying the theorem) its error log is unchanged. -/
theorem C10_flag_monotone_witness :
    (validate exEnv (initSt exCfgVeths)).st.errors = (initSt exCfgVeths).errors :=
  (C10_flag_monotone exEnv (initSt exCfgVeths) VNone VNone []).1 rfl

end VnetValidate
